import Mathlib

/-!
Verification of the calorie-prediction service in `src/Calories/app.py`.

Modelling conventions for the shallow embedding:
* Python floats are modelled as rationals (`ℚ`); `round(x, 2)` is modelled
  as round-half-to-even at two decimal places.
* A NumPy 2-D array is a list of rows, each row a list of rationals.
* The opaque, pre-trained model and the optional scaler loaded with
  `joblib.load` are modelled as functions that may raise: a raised Python
  exception is an `Except.error`.
* Calls into the scaler (`scaler.transform`) and the model
  (`model.predict`) are recorded in a call log, so that "the vector
  submitted to the model" is a statement about the log.
-/

set_option maxRecDepth 4000

deriving instance DecidableEq for Except

/-- A NumPy 2-D array: a list of rows of rationals. -/
abbrev Mat := List (List ℚ)

/-- A Python exception escaping the handler. -/
inductive PyErr where
  /-- `scaler.transform` when `scaler` is `None`. -/
  | attributeError
  /-- `prediction[0]` when the model returned an empty array. -/
  | indexError
  /-- an exception raised inside an opaque artifact (`joblib.load`,
  `scaler.transform`, `model.predict`). -/
  | raised (msg : String)
deriving DecidableEq

/-- The input schema `InputData(BaseModel)` of `app.py`: four required
float fields. -/
structure InputData where
  age : ℚ
  duration : ℚ
  heart_rate : ℚ
  body_temp : ℚ
deriving DecidableEq

/-- The process-wide globals of `app.py` after module initialisation:
`model`, `scaler`, `use_scaler`. -/
structure AppState where
  model : Mat → Except PyErr (List ℚ)
  scaler : Option (Mat → Except PyErr Mat)
  use_scaler : Bool

/-- `np.array([[data.age, data.duration, data.heart_rate, data.body_temp]])`:
the single-row feature matrix built by `predict`. -/
def rawFeatures (d : InputData) : Mat :=
  [[d.age, d.duration, d.heart_rate, d.body_temp]]

/-- Floor of a rational, as floor division of numerator by denominator. -/
def ratFloor (q : ℚ) : ℤ := Int.fdiv q.num q.den

/-- Round-half-to-even to an integer, the tie rule of Python `round`. -/
def roundHalfEven (q : ℚ) : ℤ :=
  if q - ratFloor q < 1 / 2 then ratFloor q
  else if q - ratFloor q > 1 / 2 then ratFloor q + 1
  else if ratFloor q % 2 = 0 then ratFloor q else ratFloor q + 1

/-- Python `round(q, 2)`. -/
def roundTo2 (q : ℚ) : ℚ := (roundHalfEven (q * 100) : ℚ) / 100

/-- The success payload `{"calories_burnt": v}`. -/
structure PredictResponse where
  calories_burnt : ℚ
deriving DecidableEq

/-- Which matrices were handed to `scaler.transform` and to
`model.predict` during one request. -/
structure CallLog where
  scalerCalls : List Mat
  modelCalls : List Mat
deriving DecidableEq

/-- Lines 47-49 of `app.py`: `if use_scaler: features = scaler.transform(features)`.
Returns the (possibly transformed) features together with the list of
matrices passed to the scaler. -/
def scaleStage (st : AppState) (features : Mat) : Except PyErr Mat × List Mat :=
  if st.use_scaler then
    match st.scaler with
    | some s => (s features, [features])
    | none => (.error .attributeError, [])
  else (.ok features, [])

/-- Lines 51-54 of `app.py`: `prediction = model.predict(features)` followed
by `prediction[0]`. Returns the scalar prediction together with the list of
matrices passed to the model. -/
def modelStage (st : AppState) (features : Mat) : Except PyErr ℚ × List Mat :=
  (match st.model features with
   | .error e => .error e
   | .ok prediction =>
     match prediction.head? with
     | none => .error .indexError
     | some p => .ok p,
   [features])

/-- The body of the `predict` handler of `app.py` (lines 42-54), after
schema validation has produced an `InputData`. -/
def predict (st : AppState) (d : InputData) :
    Except PyErr PredictResponse × CallLog :=
  match scaleStage st (rawFeatures d) with
  | (.error e, sc) => (.error e, ⟨sc, []⟩)
  | (.ok scaled, sc) =>
    match modelStage st scaled with
    | (.error e, mc) => (.error e, ⟨sc, mc⟩)
    | (.ok p, mc) => (.ok ⟨roundTo2 p⟩, ⟨sc, mc⟩)

example :
    predict ⟨fun _ => .ok [150456 / 1000], none, false⟩ ⟨30, 25, 120, 38.5⟩
      = (.ok ⟨15046 / 100⟩, ⟨[], [[[30, 25, 120, 38.5]]]⟩) := by
  with_unfolding_all rfl

/-!
Schema validation (`data: InputData` in the route signature): FastAPI
parses the JSON body and pydantic validates it against `InputData`.
A JSON value offered for a `float` field is modelled as a number, a
string, or `null`; pydantic coerces numbers and numeric strings to float
and rejects everything else with a 422 validation error. String
coercion follows Python `float(str)` on finite decimal literals:
optional surrounding whitespace, optional sign, digits with optional
fraction, optional exponent. (Non-finite literals such as `inf`/`nan`
and underscore digit grouping fall outside the rational model and are
not modelled.)
-/

/-- A JSON value supplied for one field of the request body. -/
inductive JVal where
  | num (q : ℚ)
  | str (s : String)
  | null
deriving DecidableEq

/-- Value of a nonempty digit string. -/
def digitsVal (l : List Char) : ℕ :=
  l.foldl (fun a c => 10 * a + (c.toNat - 48)) 0

/-- A nonempty, all-digit character list. -/
def isDigits (l : List Char) : Bool :=
  !l.isEmpty && l.all Char.isDigit

/-- Unsigned mantissa of a Python float literal: `digits`, `digits.digits`,
`digits.` or `.digits`. -/
def pyMantissa (l : List Char) : Option ℚ :=
  match l.splitOn '.' with
  | [w] => if isDigits w then some (digitsVal w) else none
  | [w, f] =>
    if (w.all Char.isDigit && f.all Char.isDigit) && (!w.isEmpty || !f.isEmpty) then
      some ((digitsVal w : ℚ) + (digitsVal f : ℚ) / 10 ^ f.length)
    else none
  | _ => none

/-- Optional sign in front of a literal. -/
def pySigned (p : List Char → Option ℚ) (l : List Char) : Option ℚ :=
  match l with
  | '+' :: rest => p rest
  | '-' :: rest => Option.map Neg.neg (p rest)
  | _ => p l

/-- Signed integer exponent of a Python float literal. -/
def pyExp (l : List Char) : Option ℤ :=
  match l with
  | '+' :: rest => if isDigits rest then some (digitsVal rest) else none
  | '-' :: rest => if isDigits rest then some (-(digitsVal rest : ℤ)) else none
  | _ => if isDigits l then some (digitsVal l) else none

/-- Python `float(s)` on a finite decimal literal, as a rational;
`none` when the string is not such a literal. -/
def pyFloat (s : String) : Option ℚ :=
  let l := (s.trim.toList).map Char.toLower
  match l.splitOn 'e' with
  | [m] => pySigned pyMantissa m
  | [m, ex] =>
    match pySigned pyMantissa m, pyExp ex with
    | some q, some e => some (q * (10 : ℚ) ^ e)
    | _, _ => none
  | _ => none

/-- Pydantic lax coercion of one JSON value into a `float` field. -/
def coerceFloat : JVal → Option ℚ
  | .num q => some q
  | .str s => pyFloat s
  | .null => none

/-- One incoming request body: each of the four fields of `InputData`
is either absent or carries a JSON value. -/
structure RequestBody where
  age : Option JVal
  duration : Option JVal
  heart_rate : Option JVal
  body_temp : Option JVal
deriving DecidableEq

/-- A field fails validation when it is missing or its value does not
coerce to float. -/
def fieldBad (o : Option JVal) : Bool :=
  match o with
  | none => true
  | some v => (coerceFloat v).isNone

/-- Pydantic validation of the whole body against `InputData`:
every field must be present and coerce to float. -/
def validateBody (b : RequestBody) : Option InputData :=
  match b.age >>= coerceFloat, b.duration >>= coerceFloat,
      b.heart_rate >>= coerceFloat, b.body_temp >>= coerceFloat with
  | some a, some du, some h, some t => some ⟨a, du, h, t⟩
  | _, _, _, _ => none

/-- What the caller receives from `POST /predict`. -/
inductive HttpResult where
  /-- status 200 with the JSON body `{"calories_burnt": v}`. -/
  | success (status : ℕ) (body : PredictResponse)
  /-- pydantic validation failed: FastAPI's client-error response. -/
  | validationError (status : ℕ)
  /-- an exception escaped the handler: framework-default unhandled
  server error. -/
  | serverError (e : PyErr)
deriving DecidableEq

/-- The full route `POST /predict`: validate the body against
`InputData`; on failure FastAPI answers 422 without entering the
handler; on success run the handler body, letting any exception
surface as an unhandled server error. -/
def handlePredict (st : AppState) (b : RequestBody) : HttpResult × CallLog :=
  match validateBody b with
  | none => (.validationError 422, ⟨[], []⟩)
  | some d =>
    match predict st d with
    | (.error e, log) => (.serverError e, log)
    | (.ok r, log) => (.success 200 r, log)

example : pyFloat "30" = some 30 := by with_unfolding_all rfl
example : pyFloat "not-a-number" = none := by with_unfolding_all rfl
example : pyFloat " -38.5e1 " = some (-385) := by with_unfolding_all rfl

/-!
Module initialisation (lines 10-21 of `app.py`): `joblib.load('Calories.pkl')`
runs unguarded, so a missing or unreadable model file raises out of the
module body and the app never comes up; `scaler.pkl` is guarded by
`os.path.exists`, the missing-scaler branch sets `scaler = None`,
`use_scaler = False` and prints a warning.
-/

/-- The filesystem as the module body observes it: the outcome of
`joblib.load('Calories.pkl')`, whether `scaler.pkl` exists, and the
outcome of `joblib.load('scaler.pkl')` when attempted. -/
structure Fs where
  caloriesLoad : Except PyErr (Mat → Except PyErr (List ℚ))
  scalerExists : Bool
  scalerLoad : Except PyErr (Mat → Except PyErr Mat)

/-- The warning printed when `scaler.pkl` is absent. -/
def scalerWarning : String :=
  "Warning: scaler.pkl not found, proceeding without scaling."

/-- Outcome of a successful module initialisation: the globals plus
what was printed. -/
structure StartupResult where
  state : AppState
  warnings : List String

/-- Lines 10-21 of `app.py`: load the mandatory model, then the optional
scaler. An `Except.error` is an exception escaping the module body, i.e.
the process fails to start. -/
def startup (fs : Fs) : Except PyErr StartupResult :=
  match fs.caloriesLoad with
  | .error e => .error e
  | .ok m =>
    if fs.scalerExists then
      match fs.scalerLoad with
      | .error e => .error e
      | .ok s => .ok ⟨⟨m, some s, true⟩, []⟩
    else
      .ok ⟨⟨m, none, false⟩, [scalerWarning]⟩

/-- One request served by the process: the handler body contains no
assignment to a module-level name (no `global` statement), so the
process state after the call is the state before it; the response is
whatever `handlePredict` produces from the current state. -/
def handleReq (st : AppState) (b : RequestBody) :
    AppState × HttpResult × CallLog :=
  (st, handlePredict st b)

/-- A sequence of requests served one after the other, threading the
process state through `handleReq`. -/
def serveAll : AppState → List RequestBody → AppState × List (HttpResult × CallLog)
  | st, [] => (st, [])
  | st, b :: rest =>
    let (st1, r) := handleReq st b
    let (st2, rs) := serveAll st1 rest
    (st2, r :: rs)

/-!
Helper lemmas shared by the claim theorems.
-/

/-- With `use_scaler = False` the scaling block is skipped. -/
lemma scaleStage_of_false (st : AppState) (hf : st.use_scaler = false)
    (f : Mat) : scaleStage st f = (.ok f, []) := by
  simp [scaleStage, hf]

/-- With `use_scaler = True` and a loaded scaler, the features are
exactly `scaler.transform(features)`. -/
lemma scaleStage_of_some (st : AppState) (s : Mat → Except PyErr Mat)
    (ht : st.use_scaler = true) (hs : st.scaler = some s) (f : Mat) :
    scaleStage st f = (s f, [f]) := by
  simp [scaleStage, ht, hs]

/-- Behaviour of the handler body once the scaling block has produced a
feature matrix: the model is invoked on exactly that matrix. -/
lemma predict_of_scaled_ok (st : AppState) (d : InputData) (m : Mat)
    (cs : List Mat) (hs : scaleStage st (rawFeatures d) = (.ok m, cs)) :
    predict st d =
      match st.model m with
      | .error e => (.error e, ⟨cs, [m]⟩)
      | .ok prediction =>
        match prediction.head? with
        | none => (.error .indexError, ⟨cs, [m]⟩)
        | some p => (.ok ⟨roundTo2 p⟩, ⟨cs, [m]⟩) := by
  unfold predict
  rw [hs]
  unfold modelStage
  cases hm : st.model m with
  | error e => simp [hm]
  | ok prediction => cases hh : prediction.head? <;> simp [hm, hh]

/-- Behaviour of the handler body when the scaling block raises: the
exception propagates and the model is never invoked. -/
lemma predict_of_scaled_error (st : AppState) (d : InputData) (e : PyErr)
    (cs : List Mat) (hs : scaleStage st (rawFeatures d) = (.error e, cs)) :
    predict st d = (.error e, ⟨cs, []⟩) := by
  unfold predict
  rw [hs]

/-- Once the body validates, the route runs the handler body and wraps
its outcome. -/
lemma handlePredict_of_valid (st : AppState) (b : RequestBody)
    (d : InputData) (hv : validateBody b = some d) :
    handlePredict st b =
      match predict st d with
      | (.error e, log) => (.serverError e, log)
      | (.ok r, log) => (.success 200 r, log) := by
  unfold handlePredict
  rw [hv]

/-- The call log of one handler run, as a function of the scaling
stage alone: the model receives exactly the matrix the scaling stage
produced, and nothing when the scaling stage raised. -/
lemma predict_log (st : AppState) (d : InputData) :
    (predict st d).2 =
      match scaleStage st (rawFeatures d) with
      | (.error _, sc) => ⟨sc, []⟩
      | (.ok scaled, sc) => ⟨sc, [scaled]⟩ := by
  rcases h : scaleStage st (rawFeatures d) with ⟨r, sc⟩
  cases r with
  | error e => rw [predict_of_scaled_error st d e sc h]
  | ok scaled =>
    rw [predict_of_scaled_ok st d scaled sc h]
    cases hm : st.model scaled with
    | error e => simp
    | ok prediction => cases hh : prediction.head? <;> simp [hh]

/-- C1: for every InputRecord, the feature vector that `predict`
constructs and submits to the model (or scaler) is exactly the
4-element sequence `[age, duration, heart_rate, body_temp]` taken
positionally from the record, in that fixed order, as a single row. -/
theorem c1_raw_feature_vector_submitted (st : AppState) (d : InputData) :
    rawFeatures d = [[d.age, d.duration, d.heart_rate, d.body_temp]] ∧
    (st.use_scaler = false →
      (predict st d).2.modelCalls = [rawFeatures d]) ∧
    (∀ s, st.use_scaler = true → st.scaler = some s →
      (predict st d).2.scalerCalls = [rawFeatures d]) := by
  refine ⟨rfl, ?_, ?_⟩
  · intro hf
    rw [predict_log, scaleStage_of_false st hf]
  · intro s ht hs
    rw [predict_log, scaleStage_of_some st s ht hs]
    cases s (rawFeatures d) <;> simp

/-- C1 witness: a concrete no-scaler state and record. -/
theorem c1_witness :
    (predict ⟨fun _ => .ok [1], none, false⟩ ⟨30, 25, 120, 38.5⟩).2.modelCalls
      = [rawFeatures ⟨30, 25, 120, 38.5⟩] :=
  (c1_raw_feature_vector_submitted ⟨fun _ => .ok [1], none, false⟩
    ⟨30, 25, 120, 38.5⟩).2.1 rfl

/-- C2: the vector passed to the model equals
`scaler.transform(raw_vector)` when `use_scaler` is true, and equals the
raw feature vector unchanged when `use_scaler` is false. -/
theorem c2_model_input_scaled_iff_use_scaler (st : AppState) (d : InputData) :
    (∀ s m, st.use_scaler = true → st.scaler = some s →
      s (rawFeatures d) = .ok m →
      (predict st d).2.modelCalls = [m]) ∧
    (st.use_scaler = false →
      (predict st d).2.modelCalls = [rawFeatures d]) := by
  constructor
  · intro s m ht hsc hm
    rw [predict_log, scaleStage_of_some st s ht hsc, hm]
  · intro hf
    rw [predict_log, scaleStage_of_false st hf]

/-- C2 witness: a stub scaler that doubles every entry. -/
theorem c2_witness :
    (predict ⟨fun _ => .ok [1], some (fun m => .ok (m.map (List.map (2 * ·)))), true⟩
        ⟨30, 25, 120, 38.5⟩).2.modelCalls = [[[60, 50, 240, 77]]] :=
  (c2_model_input_scaled_iff_use_scaler
      ⟨fun _ => .ok [1], some (fun m => .ok (m.map (List.map (2 * ·)))), true⟩
      ⟨30, 25, 120, 38.5⟩).1
    (fun m => .ok (m.map (List.map (2 * ·)))) [[60, 50, 240, 77]]
    rfl rfl (by with_unfolding_all rfl)

/-- The result of `round(p, 2)` has at most two decimal places: scaled
by 100 it is an integer. -/
lemma roundTo2_two_decimals (p : ℚ) : (roundTo2 p * 100).den = 1 := by
  unfold roundTo2
  rw [div_mul_cancel₀ _ (by norm_num : (100 : ℚ) ≠ 0)]
  exact Rat.den_intCast _

/-- C3: for all valid InputRecord values, `predict` returns the model's
single numeric prediction rounded to exactly 2 decimal places, and the
success response is the JSON object with key `calories_burnt` holding
that rounded value, with HTTP status 200. -/
theorem c3_success_response_rounded (st : AppState) (b : RequestBody)
    (d : InputData) (m : Mat) (cs : List Mat) (p : ℚ) (rest : List ℚ)
    (hv : validateBody b = some d)
    (hs : scaleStage st (rawFeatures d) = (.ok m, cs))
    (hm : st.model m = .ok (p :: rest)) :
    (handlePredict st b).1 = .success 200 ⟨roundTo2 p⟩ ∧
    (roundTo2 p * 100).den = 1 := by
  constructor
  · rw [handlePredict_of_valid st b d hv, predict_of_scaled_ok st d m cs hs, hm]
    simp
  · exact roundTo2_two_decimals p

/-- C3 witness: a stub model answering `[150.456]` on the example record. -/
theorem c3_witness :
    (handlePredict ⟨fun _ => .ok [150456 / 1000], none, false⟩
        ⟨some (.num 30), some (.num 25), some (.num 120), some (.num 38.5)⟩).1
      = .success 200 ⟨roundTo2 (150456 / 1000)⟩ ∧
    (roundTo2 (150456 / 1000) * 100).den = 1 :=
  c3_success_response_rounded ⟨fun _ => .ok [150456 / 1000], none, false⟩
    ⟨some (.num 30), some (.num 25), some (.num 120), some (.num 38.5)⟩
    ⟨30, 25, 120, 38.5⟩ (rawFeatures ⟨30, 25, 120, 38.5⟩) [] (150456 / 1000) []
    rfl rfl rfl

/-- C4: the request with age 30, duration 25, heart rate 120 and body
temperature 38.5, against a stub model that always returns `[150.456]`
and no scaler, yields status 200 with body `calories_burnt = 150.46`. -/
theorem c4_end_to_end_example :
    handlePredict ⟨fun _ => .ok [150456 / 1000], none, false⟩
        ⟨some (.num 30), some (.num 25), some (.num 120), some (.num 38.5)⟩
      = (.success 200 ⟨150.46⟩, ⟨[], [[[30, 25, 120, 38.5]]]⟩) := by
  with_unfolding_all rfl

/-- A missing field validates to nothing. -/
lemma fieldBad_eq_none (o : Option JVal) (h : fieldBad o = true) :
    o >>= coerceFloat = none := by
  cases o with
  | none => rfl
  | some v =>
    simpa [fieldBad, Option.isNone_iff_eq_none] using h

/-- A present, coercible field validates to its coerced value. -/
lemma fieldGood (o : Option JVal) (h : fieldBad o = false) :
    ∃ q, o >>= coerceFloat = some q := by
  cases o with
  | none => simp [fieldBad] at h
  | some v =>
    cases hc : coerceFloat v with
    | none => simp [fieldBad, Option.isNone_iff_eq_none, hc] at h
    | some q => exact ⟨q, by simp [hc]⟩

/-- C5: every request body with a missing field or a field value that
does not coerce to a number fails schema validation; the caller gets the
422 client-error response and the handler body never runs: no matrix is
ever handed to the scaler or the model. -/
theorem c5_invalid_body_rejected (st : AppState) (b : RequestBody)
    (h : fieldBad b.age = true ∨ fieldBad b.duration = true ∨
         fieldBad b.heart_rate = true ∨ fieldBad b.body_temp = true) :
    validateBody b = none ∧
    handlePredict st b = (.validationError 422, ⟨[], []⟩) := by
  have key : b.age >>= coerceFloat = none ∨ b.duration >>= coerceFloat = none ∨
      b.heart_rate >>= coerceFloat = none ∨ b.body_temp >>= coerceFloat = none := by
    rcases h with h | h | h | h
    · exact Or.inl (fieldBad_eq_none _ h)
    · exact Or.inr (Or.inl (fieldBad_eq_none _ h))
    · exact Or.inr (Or.inr (Or.inl (fieldBad_eq_none _ h)))
    · exact Or.inr (Or.inr (Or.inr (fieldBad_eq_none _ h)))
  have hv : validateBody b = none := by
    unfold validateBody
    rcases h1 : b.age >>= coerceFloat with _ | q1 <;>
      rcases h2 : b.duration >>= coerceFloat with _ | q2 <;>
        rcases h3 : b.heart_rate >>= coerceFloat with _ | q3 <;>
          rcases h4 : b.body_temp >>= coerceFloat with _ | q4 <;>
            simp_all
  refine ⟨hv, ?_⟩
  unfold handlePredict
  rw [hv]

/-- C5 witness: a body whose age is the string not-a-number. -/
theorem c5_witness :
    validateBody ⟨some (.str ("not-a-number")), some (.num 25),
        some (.num 120), some (.num 38.5)⟩ = none ∧
    handlePredict ⟨fun _ => .ok [1], none, false⟩
        ⟨some (.str ("not-a-number")), some (.num 25),
         some (.num 120), some (.num 38.5)⟩
      = (.validationError 422, ⟨[], []⟩) :=
  c5_invalid_body_rejected ⟨fun _ => .ok [1], none, false⟩
    ⟨some (.str ("not-a-number")), some (.num 25),
     some (.num 120), some (.num 38.5)⟩
    (Or.inl (by with_unfolding_all rfl))

/-- C6: if `joblib.load('Calories.pkl')` raises at process start, the
exception escapes the module body: startup fails and no ready state is
ever produced. -/
theorem c6_missing_model_aborts_startup (fs : Fs) (e : PyErr)
    (h : fs.caloriesLoad = .error e) :
    startup fs = .error e ∧ ∀ r, startup fs ≠ .ok r := by
  have hs : startup fs = .error e := by
    unfold startup
    rw [h]
  exact ⟨hs, fun r hr => by rw [hs] at hr; exact Except.noConfusion hr⟩

/-- C6 witness: a filesystem with no readable model artifact. -/
theorem c6_witness :
    startup ⟨.error (.raised ("Calories.pkl not found")), false,
        .error (.raised ("scaler.pkl not found"))⟩
      = .error (.raised ("Calories.pkl not found")) :=
  (c6_missing_model_aborts_startup
    ⟨.error (.raised ("Calories.pkl not found")), false,
     .error (.raised ("scaler.pkl not found"))⟩
    (.raised ("Calories.pkl not found")) rfl).1

/-- C7: if `scaler.pkl` does not exist, startup still succeeds with
`use_scaler = False`, `scaler = None` and the warning printed, and every
subsequent call of the handler body scales nothing: the scaler is never
invoked and the model receives the raw feature vector. -/
theorem c7_missing_scaler_recoverable (fs : Fs)
    (m : Mat → Except PyErr (List ℚ)) (hm : fs.caloriesLoad = .ok m)
    (hs : fs.scalerExists = false) :
    startup fs = .ok ⟨⟨m, none, false⟩, [scalerWarning]⟩ ∧
    ∀ d : InputData,
      (predict ⟨m, none, false⟩ d).2.scalerCalls = [] ∧
      (predict ⟨m, none, false⟩ d).2.modelCalls = [rawFeatures d] := by
  constructor
  · unfold startup
    rw [hm, hs]
    simp
  · intro d
    have hlog := predict_log ⟨m, none, false⟩ d
    rw [scaleStage_of_false ⟨m, none, false⟩ rfl] at hlog
    rw [hlog]
    exact ⟨rfl, rfl⟩

/-- C7 witness: a filesystem holding only the model artifact. -/
theorem c7_witness :
    startup ⟨.ok (fun _ => .ok [1]), false, .error (.raised ("absent"))⟩
      = .ok ⟨⟨fun _ => .ok [1], none, false⟩, [scalerWarning]⟩ :=
  (c7_missing_scaler_recoverable
    ⟨.ok (fun _ => .ok [1]), false, .error (.raised ("absent"))⟩
    (fun _ => .ok [1]) rfl rfl).1

/-- C8: an exception raised inside `scaler.transform` or inside
`model.predict` propagates uncaught out of the handler and surfaces as
an unhandled server error to the caller. -/
theorem c8_inference_exceptions_propagate (st : AppState) (b : RequestBody)
    (d : InputData) (e : PyErr) (hv : validateBody b = some d) :
    (∀ s, st.use_scaler = true → st.scaler = some s →
      s (rawFeatures d) = .error e →
      handlePredict st b = (.serverError e, ⟨[rawFeatures d], []⟩)) ∧
    (∀ m cs, scaleStage st (rawFeatures d) = (.ok m, cs) →
      st.model m = .error e →
      handlePredict st b = (.serverError e, ⟨cs, [m]⟩)) := by
  constructor
  · intro s ht hsc herr
    rw [handlePredict_of_valid st b d hv,
      predict_of_scaled_error st d e [rawFeatures d]
        (by rw [scaleStage_of_some st s ht hsc, herr])]
  · intro m cs hsc hm
    rw [handlePredict_of_valid st b d hv,
      predict_of_scaled_ok st d m cs hsc, hm]

/-- C8 witness: a model that always raises on a valid body. -/
theorem c8_witness :
    handlePredict ⟨fun _ => .error (.raised ("domain error")), none, false⟩
        ⟨some (.num 30), some (.num 25), some (.num 120), some (.num 38.5)⟩
      = (.serverError (.raised ("domain error")),
         ⟨[], [rawFeatures ⟨30, 25, 120, 38.5⟩]⟩) :=
  (c8_inference_exceptions_propagate
    ⟨fun _ => .error (.raised ("domain error")), none, false⟩
    ⟨some (.num 30), some (.num 25), some (.num 120), some (.num 38.5)⟩
    ⟨30, 25, 120, 38.5⟩ (.raised ("domain error")) rfl).2
    (rawFeatures ⟨30, 25, 120, 38.5⟩) [] rfl rfl

/-- C9: the process state `(model, scaler, use_scaler)` is produced once
at startup and never mutated: serving any sequence of requests leaves
the state unchanged, and every single request is answered exactly as it
would be against the startup state, regardless of how many calls precede
it. -/
theorem c9_process_state_immutable (st : AppState) (bs : List RequestBody) :
    (serveAll st bs).1 = st ∧
    (serveAll st bs).2 = bs.map (fun b => handlePredict st b) := by
  induction bs with
  | nil => exact ⟨rfl, rfl⟩
  | cons b rest ih =>
    unfold serveAll handleReq
    exact ⟨ih.1, by rw [List.map_cons]; exact congrArg _ ih.2⟩

/-- C10: pydantic coerces rather than strictly type-checks: string field
values that parse as numbers pass validation and the request is handled
identically to the one with the corresponding numeric values, and a body
is rejected only when some field is missing or fails coercion to float. -/
theorem c10_numeric_string_coercion (st : AppState) (s1 s2 s3 s4 : String)
    (q1 q2 q3 q4 : ℚ)
    (h1 : pyFloat s1 = some q1) (h2 : pyFloat s2 = some q2)
    (h3 : pyFloat s3 = some q3) (h4 : pyFloat s4 = some q4) :
    validateBody ⟨some (.str s1), some (.str s2), some (.str s3), some (.str s4)⟩
        = some ⟨q1, q2, q3, q4⟩ ∧
    handlePredict st ⟨some (.str s1), some (.str s2), some (.str s3), some (.str s4)⟩
        = handlePredict st ⟨some (.num q1), some (.num q2), some (.num q3), some (.num q4)⟩ ∧
    (∀ b : RequestBody, validateBody b = none →
      fieldBad b.age = true ∨ fieldBad b.duration = true ∨
      fieldBad b.heart_rate = true ∨ fieldBad b.body_temp = true) := by
  have hstr : validateBody
      ⟨some (.str s1), some (.str s2), some (.str s3), some (.str s4)⟩
      = some ⟨q1, q2, q3, q4⟩ := by
    unfold validateBody
    simp [coerceFloat, h1, h2, h3, h4]
  refine ⟨hstr, ?_, ?_⟩
  · have hnum : validateBody
        ⟨some (.num q1), some (.num q2), some (.num q3), some (.num q4)⟩
        = some ⟨q1, q2, q3, q4⟩ := by
      unfold validateBody
      simp [coerceFloat]
    unfold handlePredict
    rw [hstr, hnum]
  · intro b hb
    by_contra hcon
    push_neg at hcon
    obtain ⟨ha, hd, hh, ht⟩ := hcon
    obtain ⟨qa, hqa⟩ := fieldGood _ (Bool.not_eq_true _ ▸ ha : fieldBad b.age = false)
    obtain ⟨qd, hqd⟩ := fieldGood _ (Bool.not_eq_true _ ▸ hd : fieldBad b.duration = false)
    obtain ⟨qh, hqh⟩ := fieldGood _ (Bool.not_eq_true _ ▸ hh : fieldBad b.heart_rate = false)
    obtain ⟨qt, hqt⟩ := fieldGood _ (Bool.not_eq_true _ ▸ ht : fieldBad b.body_temp = false)
    rw [validateBody, hqa, hqd, hqh, hqt] at hb
    exact Option.noConfusion hb

/-- C10 witness: the all-string body with numeric strings validates to
the numeric record. -/
theorem c10_witness :
    validateBody ⟨some (.str ("30")), some (.str ("25")),
        some (.str ("120")), some (.str ("38.5"))⟩
      = some ⟨30, 25, 120, 38.5⟩ :=
  (c10_numeric_string_coercion ⟨fun _ => .ok [1], none, false⟩
    ("30") ("25") ("120") ("38.5") 30 25 120 38.5
    (by with_unfolding_all rfl) (by with_unfolding_all rfl)
    (by with_unfolding_all rfl) (by with_unfolding_all rfl)).1
